import Mathlib

/-!
Verification of the nuxt-starter repository's core pieces:
the image URL adapters, the error registry, and the content schema.
Definitions are shallow embeddings of the TypeScript source.
-/

namespace NuxtStarter

/-! ## URL joining (ufo's `joinURL`, the library both adapters call) -/

/-- Models ufo's `withTrailingSlash`: append "/" unless the string already
ends with "/". (Stated over the character list so the kernel can
evaluate it.) -/
def withTrailingSlash (s : String) : String :=
  if s.data.getLast? = some '/' then s else s ++ "/"

/-- Models ufo's `JOIN_LEADING_SLASH_RE` replacement: drop one leading "./"
or one leading "/". -/
def stripJoinLeadingSlash (s : String) : String :=
  match s.data with
  | '.' :: '/' :: rest => String.mk rest
  | '/' :: rest => String.mk rest
  | _ => s

/-- Models ufo's `isNonEmptyURL`: a segment counts only when it is neither
empty nor the bare "/". -/
def isNonEmptyURL (s : String) : Bool :=
  s ≠ "" && s ≠ "/"

/-- Models ufo's `joinURL` restricted to one segment, as both adapters call
it: skip an empty segment, otherwise append it to the base with exactly one
"/" between them. -/
def joinURL (base seg : String) : String :=
  if isNonEmptyURL seg then
    if base ≠ "" then withTrailingSlash base ++ stripJoinLeadingSlash seg
    else seg
  else base

/-! ## Image URL adapters (src/unnamed/part_000 and part_001) -/

/-- The fixed default base URL of both adapter variants
(`DEFAULT_BASE_URL` in part_000, the literal in part_001). -/
def DEFAULT_BASE_URL : String := "https://avatars.githubusercontent.com/u/"

/-- The options record passed to a provider's `getImage`. The only field the
source ever reads (in part_001) is `baseURL`; part_000 destructures only
`modifiers` and ignores everything else. -/
structure ImageOptions where
  baseURL : Option String := none
  deriving Repr, DecidableEq

/-- The result record `{ format, url }` returned by both adapters. -/
structure ImageResult where
  format : String
  url : String
  deriving Repr, DecidableEq

/-- part_000's `getImage` inside `defineProvider`: it destructures only
`modifiers` from the options and always joins `DEFAULT_BASE_URL` with
`src`. -/
def getImageProvider (src : String) (_options : ImageOptions) : ImageResult :=
  { format := "webp", url := joinURL DEFAULT_BASE_URL src }

/-- part_001's exported `getImage`: read `baseURL` from the options; when it
is absent or falsy (the empty string), fall back to the fixed default; then
join with `src`. -/
def getImage (src : String) (options : ImageOptions) : ImageResult :=
  let baseURL :=
    match options.baseURL with
    | none => DEFAULT_BASE_URL
    | some b => if b = "" then DEFAULT_BASE_URL else b
  { format := "webp", url := joinURL baseURL src }

/-! ## Error registry (src/src/server/errors/index.ts) -/

/-- Models the h3 error value produced by `createError`: it carries the
`statusCode` and `statusMessage` the call site supplies. -/
structure H3Error where
  statusCode : Nat
  statusMessage : String
  deriving Repr, DecidableEq

/-- Models h3's `createError` as used in the registry: build the error value
from the supplied fields. -/
def createError (statusCode : Nat) (statusMessage : String) : H3Error :=
  { statusCode := statusCode, statusMessage := statusMessage }

/-- `ErrNotFound`: thrown when a resource is not found. -/
def ErrNotFound : H3Error := createError 404 "Not found"

/-- `ErrForbidden`: thrown when access is denied. -/
def ErrForbidden : H3Error := createError 403 "Forbidden"

/-- `ErrUnauthorized`: thrown when authentication is required. -/
def ErrUnauthorized : H3Error := createError 401 "Unauthorized"

/-- `ErrBadRequest`: thrown when a request is malformed. -/
def ErrBadRequest : H3Error := createError 400 "Bad request"

/-- `ErrUnsupportedMethod`: thrown when the HTTP method is not allowed. -/
def ErrUnsupportedMethod : H3Error := createError 405 "Unsupported method"

/-- `ErrInternalServer`: thrown when the server encounters an error. -/
def ErrInternalServer : H3Error := createError 500 "Internal server error"

/-- `ErrNoParamId`: thrown when the required id parameter is missing. -/
def ErrNoParamId : H3Error := createError 400 "No param id"

/-- The module's export list: the seven named error values, in source
order. -/
def errorRegistry : List (String × H3Error) :=
  [ ("not-found", ErrNotFound)
  , ("forbidden", ErrForbidden)
  , ("unauthorized", ErrUnauthorized)
  , ("bad-request", ErrBadRequest)
  , ("unsupported-method", ErrUnsupportedMethod)
  , ("internal-server", ErrInternalServer)
  , ("missing-id-parameter", ErrNoParamId) ]

/-- The symbolic names of the seven registry entries. -/
inductive ErrKey where
  | notFound | forbidden | unauthorized | badRequest
  | unsupportedMethod | internalServer | noParamId
  deriving Repr, DecidableEq

/-- Look a registry value up by symbolic name: each name is bound once, at
module initialization, to its `createError` result. -/
def errOf : ErrKey → H3Error
  | .notFound => ErrNotFound
  | .forbidden => ErrForbidden
  | .unauthorized => ErrUnauthorized
  | .badRequest => ErrBadRequest
  | .unsupportedMethod => ErrUnsupportedMethod
  | .internalServer => ErrInternalServer
  | .noParamId => ErrNoParamId

/-- An access to a registry value at some point `t` after initialization: the
module-scope constant is read, nothing in the program writes to it. -/
def readError (k : ErrKey) (_t : Nat) : H3Error :=
  errOf k

/-! ## Content schema (src/content.config.ts) -/

/-- A parsed document value, as zod sees it after the file is parsed into a
key/value record. -/
inductive Json where
  | null
  | bool (b : Bool)
  | num (n : Int)
  | str (s : String)
  | arr (xs : List Json)
  | obj (fields : List (String × Json))
  deriving Repr

/-- A raw document record: the key/value pairs of the parsed file. -/
abbrev RawDoc := List (String × Json)

/-- One element of a zod issue path: an object key or an array index. -/
inductive PathElem where
  | key (k : String)
  | idx (i : Nat)
  deriving Repr, DecidableEq

/-- One zod validation issue: the path of the offending field and the
expected type named by the `invalid_type` issue. -/
structure Issue where
  path : List PathElem
  expected : String
  deriving Repr, DecidableEq

/-- The normalized document the schema accepts: `title` required text,
`description`, `image`, `tags` optional (absent is `none`, never a
placeholder value). -/
structure ContentDoc where
  title : String
  description : Option String
  image : Option String
  tags : Option (List String)
  deriving Repr, DecidableEq

/-- First-match field lookup in a raw record; a key that is absent yields
`none` (zod sees `undefined`). -/
def lookupField (doc : RawDoc) (k : String) : Option Json :=
  match doc with
  | [] => none
  | (k', v) :: rest => if k' = k then some v else lookupField rest k

/-- The issues of a field result: none on success. -/
def issuesOf {α : Type} : Except (List Issue) α → List Issue
  | .ok _ => []
  | .error es => es

/-- `z.string()` applied to a present value at `path`: accept exactly
strings. -/
def parseStrAt (path : List PathElem) (v : Json) : Except (List Issue) String :=
  match v with
  | .str s => .ok s
  | _ => .error [⟨path, "string"⟩]

/-- `z.string().optional()` for field `key`: an absent key parses to `none`;
a present value must be a string. -/
def parseOptStr (doc : RawDoc) (key : String) : Except (List Issue) (Option String) :=
  match lookupField doc key with
  | none => .ok none
  | some v => (parseStrAt [.key key] v).map some

/-- Elementwise `z.string()` over the members of a tags array, collecting an
issue at `tags.i` for each non-string member. -/
def parseStrElems (key : String) (i : Nat) (xs : List Json) : Except (List Issue) (List String) :=
  match xs with
  | [] => .ok []
  | v :: rest =>
    match parseStrAt [.key key, .idx i] v, parseStrElems key (i + 1) rest with
    | .ok s, .ok ss => .ok (s :: ss)
    | r1, r2 => .error (issuesOf r1 ++ issuesOf r2)

/-- `z.array(z.string()).optional()` for field `key`: absent parses to
`none`; a present value must be an array of strings. -/
def parseOptStrArray (doc : RawDoc) (key : String) : Except (List Issue) (Option (List String)) :=
  match lookupField doc key with
  | none => .ok none
  | some (.arr xs) => (parseStrElems key 0 xs).map some
  | some _ => .error [⟨[.key key], "array"⟩]

/-- `z.string()` for the required `title` field: an absent key is an
`invalid_type` issue at `title` (zod receives `undefined`). -/
def parseTitle (doc : RawDoc) : Except (List Issue) String :=
  match lookupField doc "title" with
  | none => .error [⟨[.key "title"], "string"⟩]
  | some v => parseStrAt [.key "title"] v

/-- The collection schema of content.config.ts:
`z.object({description, image, tags, title})` in source order, collecting the
issues of every field; unknown keys are not part of the shape and are
stripped from the normalized result. -/
def schemaParse (doc : RawDoc) : Except (List Issue) ContentDoc :=
  match parseOptStr doc "description", parseOptStr doc "image",
        parseOptStrArray doc "tags", parseTitle doc with
  | .ok d, .ok i, .ok tg, .ok ti =>
    .ok { title := ti, description := d, image := i, tags := tg }
  | r1, r2, r3, r4 =>
    .error (issuesOf r1 ++ issuesOf r2 ++ issuesOf r3 ++ issuesOf r4)

/-! ## Helper lemmas -/

/-- A key bound in no pair of the record looks up to `none`. -/
theorem lookupField_eq_none (doc : RawDoc) (k : String)
    (h : ∀ kv ∈ doc, kv.1 ≠ k) : lookupField doc k = none := by
  induction doc with
  | nil => rfl
  | cons kv rest ih =>
    obtain ⟨k', v⟩ := kv
    have hne : k' ≠ k := h (k', v) (List.mem_cons_self _ _)
    simp only [lookupField, if_neg hne]
    exact ih fun kv hm => h kv (List.mem_cons_of_mem _ hm)

/-- Elementwise string parsing succeeds on a list of string values. -/
theorem parseStrElems_map_str (key : String) (l : List String) :
    ∀ i, parseStrElems key i (l.map Json.str) = .ok l := by
  induction l with
  | nil => intro i; rfl
  | cons s rest ih => intro i; simp [parseStrElems, parseStrAt, ih]

/-- The schema accepts a record whose four schema fields have the right
shapes, producing exactly the looked-up values. -/
theorem schemaParse_ok_of_shape (doc : RawDoc) (t : String)
    (dsc img : Option String) (tg : Option (List String))
    (hti : lookupField doc "title" = some (Json.str t))
    (hd : lookupField doc "description" = Option.map Json.str dsc)
    (hi : lookupField doc "image" = Option.map Json.str img)
    (htg : lookupField doc "tags"
      = Option.map (fun l => Json.arr (l.map Json.str)) tg) :
    schemaParse doc = .ok ⟨t, dsc, img, tg⟩ := by
  have h1 : parseOptStr doc "description" = .ok dsc := by
    cases dsc with
    | none => simp [parseOptStr, hd]
    | some s => simp [parseOptStr, hd, parseStrAt, Except.map]
  have h2 : parseOptStr doc "image" = .ok img := by
    cases img with
    | none => simp [parseOptStr, hi]
    | some s => simp [parseOptStr, hi, parseStrAt, Except.map]
  have h3 : parseOptStrArray doc "tags" = .ok tg := by
    cases tg with
    | none => simp [parseOptStrArray, htg]
    | some l => simp [parseOptStrArray, htg, parseStrElems_map_str, Except.map]
  have h4 : parseTitle doc = .ok t := by
    simp [parseTitle, hti, parseStrAt]
  simp [schemaParse, h1, h2, h3, h4]

/-! ## Theorems -/

/-- C1 (counterexample): the defineProvider variant (part_000) does NOT honor
"override wins": with an override supplied it still returns the URL built
from the fixed default base, which differs from the override joined with the
identifier. -/
theorem provider_variant_ignores_override :
    (getImageProvider "octocat" ⟨some "https://cdn.example.com/imgs/"⟩).url
      = "https://avatars.githubusercontent.com/u/octocat" ∧
    joinURL "https://cdn.example.com/imgs/" "octocat"
      = "https://cdn.example.com/imgs/octocat" ∧
    "https://avatars.githubusercontent.com/u/octocat"
      ≠ "https://cdn.example.com/imgs/octocat" :=
  ⟨by decide, by decide, by decide⟩

/-- C1 (amended): the caller-supplied-options variant (part_001) honors
"non-empty override wins, else default", while the defineProvider variant
(part_000) always builds the URL from the fixed default base, ignoring any
override in its options. -/
theorem override_handling_per_variant (src : String) (options : ImageOptions) :
    (getImageProvider src options).url = joinURL DEFAULT_BASE_URL src ∧
    (options.baseURL = none →
      (getImage src options).url = joinURL DEFAULT_BASE_URL src) ∧
    (∀ b, options.baseURL = some b → b ≠ "" →
      (getImage src options).url = joinURL b src) := by
  refine ⟨rfl, ?_, ?_⟩
  · intro h
    simp [getImage, h]
  · intro b hb hne
    simp [getImage, hb, hne]

/-- C1 (witness for the amended theorem at a concrete input). -/
theorem override_handling_per_variant_witness :
    (getImage "octocat" ⟨some "https://cdn.example.com/imgs/"⟩).url
      = joinURL "https://cdn.example.com/imgs/" "octocat" :=
  (override_handling_per_variant "octocat"
      ⟨some "https://cdn.example.com/imgs/"⟩).2.2
    "https://cdn.example.com/imgs/" rfl (by decide)

/-- C2: the error registry exposes exactly seven pre-constructed named error
values with the stated (statusCode, statusMessage) pairs. -/
theorem error_registry_exact :
    errorRegistry.length = 7 ∧
    errorRegistry.map (fun e => (e.1, e.2.statusCode, e.2.statusMessage)) =
      [ ("not-found", 404, "Not found")
      , ("forbidden", 403, "Forbidden")
      , ("unauthorized", 401, "Unauthorized")
      , ("bad-request", 400, "Bad request")
      , ("unsupported-method", 405, "Unsupported method")
      , ("internal-server", 500, "Internal server error")
      , ("missing-id-parameter", 400, "No param id") ] :=
  ⟨rfl, rfl⟩

/-- C3: every raw document in which the `title` field is absent fails
validation with an issue naming `title`, whatever other fields are
present. -/
theorem content_missing_title_fails (doc : RawDoc)
    (h : lookupField doc "title" = none) :
    ∃ es, schemaParse doc = .error es ∧
      (⟨[.key "title"], "string"⟩ : Issue) ∈ es := by
  have ht : parseTitle doc = .error [⟨[.key "title"], "string"⟩] := by
    simp [parseTitle, h]
  simp only [schemaParse, ht]
  rcases parseOptStr doc "description" with es1 | d <;>
    rcases parseOptStr doc "image" with es2 | i <;>
      rcases parseOptStrArray doc "tags" with es3 | tg <;>
        exact ⟨_, rfl, by simp [issuesOf]⟩

/-- C3 (witness): the spec scenario `{description: "x"}` fails naming
`title`. -/
theorem content_missing_title_fails_witness :
    ∃ es, schemaParse [("description", Json.str "x")] = .error es ∧
      (⟨[.key "title"], "string"⟩ : Issue) ∈ es :=
  content_missing_title_fails [("description", Json.str "x")] rfl

/-- C4 (counterexample): with an empty-string override supplied, part_001
falls back to the default base, so the url is not the path-join of the
override with the identifier. -/
theorem empty_override_falls_back :
    (getImage "octocat" ⟨some ""⟩).url
      = "https://avatars.githubusercontent.com/u/octocat" ∧
    joinURL "" "octocat" = "octocat" ∧
    "https://avatars.githubusercontent.com/u/octocat" ≠ "octocat" :=
  ⟨by decide, by decide, by decide⟩

/-- C4 (amended): for every identifier, a supplied NON-EMPTY override base
yields the path-join of the override with the identifier; with no override
(and likewise with an empty-string override) the fixed default base is
joined with the identifier. -/
theorem resolveImageUrl_join (id : String) :
    (getImage id ⟨none⟩).url = joinURL DEFAULT_BASE_URL id ∧
    (getImage id ⟨some ""⟩).url = joinURL DEFAULT_BASE_URL id ∧
    ∀ b, b ≠ "" → (getImage id ⟨some b⟩).url = joinURL b id := by
  refine ⟨rfl, rfl, ?_⟩
  intro b hne
  simp [getImage, hne]

/-- C4 (witness for the amended theorem at the spec scenario inputs). -/
theorem resolveImageUrl_join_witness :
    (getImage "octocat" ⟨none⟩).url = joinURL DEFAULT_BASE_URL "octocat" ∧
    (getImage "octocat" ⟨some "https://cdn.example.com/"⟩).url
      = joinURL "https://cdn.example.com/" "octocat" :=
  ⟨(resolveImageUrl_join "octocat").1,
   (resolveImageUrl_join "octocat").2.2 "https://cdn.example.com/" (by decide)⟩

/-- C5: both adapter variants return format "webp" for every identifier
(including the empty string) and every options value. -/
theorem format_always_webp (src : String) (options : ImageOptions) :
    (getImageProvider src options).format = "webp" ∧
    (getImage src options).format = "webp" :=
  ⟨rfl, rfl⟩

/-- C6: every document with a text `title` and each optional field either
absent or present with the right shape validates, and each absent optional
field is `none` in the normalized result. -/
theorem content_valid_doc_ok (doc : RawDoc) (t : String)
    (dsc img : Option String) (tg : Option (List String))
    (hti : lookupField doc "title" = some (Json.str t))
    (hd : lookupField doc "description" = Option.map Json.str dsc)
    (hi : lookupField doc "image" = Option.map Json.str img)
    (htg : lookupField doc "tags"
      = Option.map (fun l => Json.arr (l.map Json.str)) tg) :
    schemaParse doc = .ok ⟨t, dsc, img, tg⟩ :=
  schemaParse_ok_of_shape doc t dsc img tg hti hd hi htg

/-- C6 (witness): the spec scenario `{title: "Hello"}` validates with all
optional fields absent. -/
theorem content_valid_doc_ok_witness :
    schemaParse [("title", Json.str "Hello")]
      = .ok ⟨"Hello", none, none, none⟩ :=
  content_valid_doc_ok [("title", Json.str "Hello")] "Hello"
    none none none rfl rfl rfl rfl

/-- C7 (counterexample): a document whose `title` is the empty string is
ACCEPTED by the schema, contradicting the claim that validation fails on
empty titles. -/
theorem content_empty_title_accepted :
    schemaParse [("title", Json.str "")] = .ok ⟨"", none, none, none⟩ :=
  rfl

/-- C7 (amended): validation enforces only that `title` is present as text;
any text title, the empty string included, is accepted. -/
theorem content_title_any_text_ok (s : String) :
    schemaParse [("title", Json.str s)] = .ok ⟨s, none, none, none⟩ := by
  simp [schemaParse, parseOptStr, parseOptStrArray, parseTitle,
    lookupField, parseStrAt]

/-- C8: every access to any of the seven named error values, at any point
after initialization, observes the value bound at initialization, hence the
same (statusCode, statusMessage) pair; nothing mutates them. -/
theorem error_values_stable (k : ErrKey) (t t' : Nat) :
    readError k t = readError k t' ∧ readError k t = errOf k :=
  ⟨rfl, rfl⟩

/-- C9: schema validation and both image adapters are deterministic: equal
inputs give equal results. -/
theorem validation_and_adapters_deterministic
    (s s' : String) (o o' : ImageOptions) (d d' : RawDoc)
    (hs : s = s') (ho : o = o') (hd : d = d') :
    getImage s o = getImage s' o' ∧
    getImageProvider s o = getImageProvider s' o' ∧
    schemaParse d = schemaParse d' := by
  subst hs; subst ho; subst hd
  exact ⟨rfl, rfl, rfl⟩

/-- C9 (witness at concrete equal inputs). -/
theorem validation_and_adapters_deterministic_witness :
    getImage "octocat" ⟨none⟩ = getImage "octocat" ⟨none⟩ ∧
    getImageProvider "octocat" ⟨none⟩ = getImageProvider "octocat" ⟨none⟩ ∧
    schemaParse [("title", Json.str "Hello")]
      = schemaParse [("title", Json.str "Hello")] :=
  validation_and_adapters_deterministic "octocat" "octocat" ⟨none⟩ ⟨none⟩
    [("title", Json.str "Hello")] [("title", Json.str "Hello")] rfl rfl rfl

/-- C10: a document with a text `title` plus only unrecognized extra fields
validates, and the normalized result holds the schema fields alone, with the
extras stripped. -/
theorem content_unknown_keys_stripped (t : String) (extras : RawDoc)
    (h : ∀ kv ∈ extras,
      kv.1 ∉ (["description", "image", "tags", "title"] : List String)) :
    schemaParse (("title", Json.str t) :: extras)
      = .ok ⟨t, none, none, none⟩ := by
  have hd : lookupField extras "description" = none :=
    lookupField_eq_none extras "description" fun kv hm => by
      have := h kv hm; simp at this; exact this.1
  have hi : lookupField extras "image" = none :=
    lookupField_eq_none extras "image" fun kv hm => by
      have := h kv hm; simp at this; exact this.2.1
  have htg : lookupField extras "tags" = none :=
    lookupField_eq_none extras "tags" fun kv hm => by
      have := h kv hm; simp at this; exact this.2.2.1
  exact schemaParse_ok_of_shape _ t none none none
    (by simp [lookupField])
    (by simp [lookupField, hd])
    (by simp [lookupField, hi])
    (by simp [lookupField, htg])

/-- C10 (witness): `{title: "t", foo: 1, author: "a"}` validates to the
schema fields only. -/
theorem content_unknown_keys_stripped_witness :
    schemaParse [("title", Json.str "t"), ("foo", Json.num 1),
      ("author", Json.str "a")] = .ok ⟨"t", none, none, none⟩ :=
  content_unknown_keys_stripped "t"
    [("foo", Json.num 1), ("author", Json.str "a")] (by decide)

end NuxtStarter
